import Mathlib

/-!
Shallow embedding of the clinic program (`hw_OOP.py`): the patient entity
model with its metaclass registry and factory, the serialization codec for
patients and appointments, the ordering/equality methods, the age/gender
setters, and the chain-of-responsibility diagnosis-change pipeline with its
role-based permission gate.

Python dict records are embedded as association lists over a dynamic value
type `DVal`.  Patient and appointment fields are typed as the data model
gives them (strings, integer age); a record whose field holds a value
outside the modeled type has no typed denotation and decoding reports
`PyError.untypedField` (Python would instead build an object holding that
raw value — no claim exercises such records).
-/

namespace Clinic

/-- Lowercasing of one character as Python `str.lower` does it, restricted to
the character ranges the program uses: ASCII letters and the Cyrillic block
(`А`–`Я` maps to `а`–`я`, `Ё` to `ё`). -/
def pyLowerChar (c : Char) : Char :=
  if 'A' ≤ c ∧ c ≤ 'Z' then Char.ofNat (c.toNat + 32)
  else if 0x410 ≤ c.toNat ∧ c.toNat ≤ 0x42F then Char.ofNat (c.toNat + 32)
  else if c.toNat = 0x401 then Char.ofNat 0x451
  else c

/-- Embedding of Python `str.lower` (see `pyLowerChar`). -/
def pyLower (s : String) : String :=
  String.mk (s.data.map pyLowerChar)

/-- Does the first character list lead the second one (needle starts the
haystack)? -/
def beginsWith : List Char → List Char → Bool
  | [], _ => true
  | _ :: _, [] => false
  | a :: as, b :: bs => a == b && beginsWith as bs

/-- Embedding of Python `needle in haystack` on strings, on the underlying
character lists. -/
def listHasSub (needle : List Char) : List Char → Bool
  | [] => beginsWith needle []
  | b :: bs => beginsWith needle (b :: bs) || listHasSub needle bs

/-- Embedding of Python `needle in haystack` on strings. -/
def hasSub (needle haystack : String) : Bool :=
  listHasSub needle.data haystack.data

/-- Dynamic values stored in a serialized record: strings, integers, nested
dicts and lists, mirroring the JSON-compatible dicts the program builds. -/
inductive DVal where
  | vStr (s : String)
  | vInt (n : Int)
  | vDict (entries : List (String × DVal))
  | vList (items : List DVal)

/-- A serialized record: a Python dict embedded as an association list
(insertion order kept; the program never creates duplicate keys). -/
abbrev Record := List (String × DVal)

/-- Embedding of Python `dict.get(k)`: `none` plays the role of `None`. -/
def Record.get? (r : Record) (k : String) : Option DVal :=
  match r with
  | [] => none
  | (k', v) :: rest => if k' = k then some v else Record.get? rest k

/-- Failure values raised by the program.  `valueError` is the
`UnknownPatientType` failure of the factory and deserializer;
`permissionDenied` is `PermissionDeniedError`; `attributeError`, `keyError`
and `typeError` are the Python runtime errors the corresponding operations
would raise; `untypedField` marks a record field with no typed denotation
in this embedding (see the header comment). -/
inductive PyError where
  | valueError (msg : String)
  | attributeError (msg : String)
  | permissionDenied (msg : String)
  | keyError (key : String)
  | typeError (msg : String)
  | untypedField (key : String)
deriving DecidableEq

/-- The concrete classes registered by `PatientMeta.__new__`: every class
with the `PatientMeta` metaclass except the base `Patient` itself. -/
inductive PClass where
  | adultPatient
  | childPatient
  | seniorPatient
  | patientWithNotifications
deriving DecidableEq

/-- Association-list lookup used to embed `dict.get` on the registry. -/
def lookupTag : List (String × PClass) → String → Option PClass
  | [], _ => none
  | (k, v) :: rest, t => if k = t then some v else lookupTag rest t

/-- The metaclass registry `PatientMeta._registry`: each concrete subclass
keyed by its lowercased class name, in definition order. -/
def registry : List (String × PClass) :=
  [("adultpatient", PClass.adultPatient),
   ("childpatient", PClass.childPatient),
   ("seniorpatient", PClass.seniorPatient),
   ("patientwithnotifications", PClass.patientWithNotifications)]

/-- Embedding of `PatientMeta.get_patient_class`: case-insensitive registry
lookup. -/
def get_patient_class (patient_type : String) : Option PClass :=
  lookupTag registry (pyLower patient_type)

/-- Variant discriminant of a patient together with its variant-specific
field: `AdultPatient.occupation`, `ChildPatient.guardian`,
`SeniorPatient.chronic_conditions`; `PatientWithNotifications` adds no
field. -/
inductive PKind where
  | adult (occupation : String)
  | child (guardian : String)
  | senior (chronic_conditions : String)
  | withNotifications
deriving DecidableEq

/-- The common constructor arguments shared by every patient class. -/
structure CommonFields where
  patient_id : String
  name : String
  age : Int
  gender : String
  medical_history : String
deriving DecidableEq

/-- A patient object: the common fields plus the variant (with its
variant-specific field). -/
structure Patient where
  patient_id : String
  name : String
  age : Int
  gender : String
  medical_history : String
  kind : PKind
deriving DecidableEq

/-- Calling the given patient class's constructor with the common fields and
the one variant-specific argument (`none` = no extra keyword argument);
an arity mismatch is the `TypeError` Python would raise. -/
def constructPatient (cls : PClass) (c : CommonFields) (extra : Option String) :
    Except PyError Patient :=
  match cls, extra with
  | .adultPatient, some o =>
      .ok ⟨c.patient_id, c.name, c.age, c.gender, c.medical_history, .adult o⟩
  | .adultPatient, none =>
      .error (.typeError "missing required argument: occupation")
  | .childPatient, some g =>
      .ok ⟨c.patient_id, c.name, c.age, c.gender, c.medical_history, .child g⟩
  | .childPatient, none =>
      .error (.typeError "missing required argument: guardian")
  | .seniorPatient, some cc =>
      .ok ⟨c.patient_id, c.name, c.age, c.gender, c.medical_history, .senior cc⟩
  | .seniorPatient, none =>
      .error (.typeError "missing required argument: chronic_conditions")
  | .patientWithNotifications, none =>
      .ok ⟨c.patient_id, c.name, c.age, c.gender, c.medical_history, .withNotifications⟩
  | .patientWithNotifications, some _ =>
      .error (.typeError "unexpected keyword argument")

/-- Message prefix of the `UnknownPatientType` failure (`ValueError` in the
source, message `Неизвестный тип пациента: <tag>`). -/
def unknownTypeMsg : String := "Неизвестный тип пациента: "

/-- Embedding of `PatientFactory.create_patient`: resolve the tag through the
registry, construct on a hit, raise `ValueError` carrying the tag on a
miss. -/
def create_patient (patient_type : String) (c : CommonFields) (extra : Option String) :
    Except PyError Patient :=
  match get_patient_class patient_type with
  | some cls => constructPatient cls c extra
  | none => .error (.valueError (unknownTypeMsg ++ patient_type))

/-- The registered class of a patient object (in Python,
`self.__class__`). -/
def Patient.cls (p : Patient) : PClass :=
  match p.kind with
  | .adult _ => .adultPatient
  | .child _ => .childPatient
  | .senior _ => .seniorPatient
  | .withNotifications => .patientWithNotifications

/-- Lowercased class name of a patient, the value `to_dict` stores under the
`type` key (`self.__class__.__name__.lower()`). -/
def Patient.typeTag (p : Patient) : String :=
  match p.cls with
  | .adultPatient => "adultpatient"
  | .childPatient => "childpatient"
  | .seniorPatient => "seniorpatient"
  | .patientWithNotifications => "patientwithnotifications"

/-- Embedding of `Patient.to_dict`: the common fields, the `type` tag, then
the variant-specific key for the three serializable variants.  The
`medical_history` entry keeps the source's truthiness guard
(`self.medical_history if self.medical_history else ""`), which on strings
is the identity. -/
def Patient.to_dict (p : Patient) : Record :=
  [("patient_id", DVal.vStr p.patient_id),
   ("name", DVal.vStr p.name),
   ("age", DVal.vInt p.age),
   ("gender", DVal.vStr p.gender),
   ("medical_history", DVal.vStr (if p.medical_history = "" then "" else p.medical_history)),
   ("type", DVal.vStr p.typeTag)] ++
  (match p.kind with
   | .adult o => [("occupation", DVal.vStr o)]
   | .child g => [("guardian", DVal.vStr g)]
   | .senior cc => [("chronic_conditions", DVal.vStr cc)]
   | .withNotifications => [])

/-- Typed decoding of the common constructor arguments read by
`Patient.from_dict` via `data.get`: `patient_id`, `name`, `age`, `gender`
must be present with the modeled types; `medical_history` defaults to the
empty string when absent (`data.get("medical_history", "")`). -/
def commonOf (data : Record) : Except PyError CommonFields :=
  match data.get? "patient_id", data.get? "name", data.get? "age", data.get? "gender" with
  | some (.vStr pid), some (.vStr nm), some (.vInt ag), some (.vStr gd) =>
      match data.get? "medical_history" with
      | none => .ok ⟨pid, nm, ag, gd, ""⟩
      | some (.vStr mh) => .ok ⟨pid, nm, ag, gd, mh⟩
      | some _ => .error (.untypedField "medical_history")
  | _, _, _, _ => .error (.untypedField "patient_id/name/age/gender")

/-- Embedding of `data.get(key, "")` for the variant-specific keys: absent
keys default to the empty string. -/
def Record.getStrD (r : Record) (k : String) : Except PyError String :=
  match r.get? k with
  | none => .ok ""
  | some (.vStr s) => .ok s
  | some _ => .error (.untypedField k)

/-- Message of the crash `None.lower()` raises inside
`get_patient_class` when `data.get("type")` returned `None`. -/
def noneLowerMsg : String := "NoneType object has no attribute lower"

/-- Embedding of the static `Patient.from_dict`: read `type` (a missing or
non-string value crashes with `AttributeError` when `get_patient_class`
calls `.lower()` on it), resolve it through the registry (`ValueError` on a
miss), collect the variant-specific argument with an empty-string default,
and call the resolved class's constructor on the common fields. -/
def Patient.from_dict (data : Record) : Except PyError Patient :=
  match data.get? "type" with
  | none => .error (.attributeError noneLowerMsg)
  | some (.vInt _) | some (.vDict _) | some (.vList _) =>
      .error (.attributeError "object has no attribute lower")
  | some (.vStr t) =>
      match get_patient_class t with
      | none => .error (.valueError (unknownTypeMsg ++ t))
      | some cls =>
          match commonOf data with
          | .error e => .error e
          | .ok c =>
              match cls with
              | .adultPatient =>
                  match data.getStrD "occupation" with
                  | .error e => .error e
                  | .ok o => constructPatient .adultPatient c (some o)
              | .childPatient =>
                  match data.getStrD "guardian" with
                  | .error e => .error e
                  | .ok g => constructPatient .childPatient c (some g)
              | .seniorPatient =>
                  match data.getStrD "chronic_conditions" with
                  | .error e => .error e
                  | .ok cc => constructPatient .seniorPatient c (some cc)
              | .patientWithNotifications =>
                  constructPatient .patientWithNotifications c none

/-- Embedding of the `age` property setter: assign when `1 < age < 110`,
otherwise keep the old value (the source only prints a message — the
failure is locally absorbed, no error value is produced). -/
def Patient.set_age (p : Patient) (age : Int) : Patient :=
  if 1 < age ∧ age < 110 then { p with age := age } else p

/-- Embedding of the `gender` property setter: assign when the code is `м`
or `ж`, otherwise keep the old value. -/
def Patient.set_gender (p : Patient) (gender : String) : Patient :=
  if gender = "м" ∨ gender = "ж" then { p with gender := gender } else p

/-- Embedding of `Patient.__lt__`: younger, or same age with a shorter
medical history. -/
def Patient.lt (a b : Patient) : Bool :=
  if a.age < b.age then true
  else if a.age = b.age then decide (a.medical_history.length < b.medical_history.length)
  else false

/-- Embedding of `Patient.__gt__`: older, or same age with a longer medical
history. -/
def Patient.gt (a b : Patient) : Bool :=
  if a.age > b.age then true
  else if a.age = b.age then decide (a.medical_history.length > b.medical_history.length)
  else false

/-- Embedding of `Patient.__eq__`: same age and same medical-history
length. -/
def Patient.eq (a b : Patient) : Bool :=
  decide (a.age = b.age) && decide (a.medical_history.length = b.medical_history.length)

/-- Embedding of `DoctorInfo`: a plain value object. -/
structure DoctorInfo where
  name : String
  specialty : String
  contact_info : String
deriving DecidableEq

/-- Embedding of `Service`: a named service with a price. -/
structure Service where
  name : String
  price : Int
deriving DecidableEq

/-- Embedding of `Appointment`: the scalar fields, the owned patient
reference, the doctor info and the ordered service list (initially empty in
the constructor, grown by `add_service`). -/
structure Appointment where
  appointment_id : String
  patient : Patient
  doctor : String
  date : String
  diagnosis : String
  prescription : String
  doctor_info : DoctorInfo
  services : List Service
deriving DecidableEq

/-- Embedding of `Appointment.add_service`: append one service at the end of
the list. -/
def Appointment.add_service (a : Appointment) (s : Service) : Appointment :=
  { a with services := a.services ++ [s] }

/-- Embedding of `Appointment.to_dict`: the scalar fields, the nested
patient record, the doctor-info sub-record and the ordered `{name, price}`
service sub-records. -/
def Appointment.to_dict (a : Appointment) : Record :=
  [("appointment_id", DVal.vStr a.appointment_id),
   ("patient", DVal.vDict a.patient.to_dict),
   ("doctor", DVal.vStr a.doctor),
   ("date", DVal.vStr a.date),
   ("diagnosis", DVal.vStr a.diagnosis),
   ("prescription", DVal.vStr a.prescription),
   ("doctor_info", DVal.vDict
     [("name", DVal.vStr a.doctor_info.name),
      ("specialty", DVal.vStr a.doctor_info.specialty),
      ("contact_info", DVal.vStr a.doctor_info.contact_info)]),
   ("services", DVal.vList (a.services.map fun s =>
     DVal.vDict [("name", DVal.vStr s.name), ("price", DVal.vInt s.price)]))]

/-- Embedding of Python `data[k]` expected to be a string: `KeyError` when
the key is absent. -/
def Record.getStrItem (r : Record) (k : String) : Except PyError String :=
  match r.get? k with
  | none => .error (.keyError k)
  | some (.vStr s) => .ok s
  | some _ => .error (.untypedField k)

/-- Embedding of Python `data[k]` expected to be a nested dict. -/
def Record.getDictItem (r : Record) (k : String) : Except PyError Record :=
  match r.get? k with
  | none => .error (.keyError k)
  | some (.vDict d) => .ok d
  | some _ => .error (.untypedField k)

/-- Decoding of one service sub-record as `Appointment.from_dict` reads it:
`Service(name=service_data["name"], price=service_data["price"])`. -/
def decodeService (v : DVal) : Except PyError Service :=
  match v with
  | .vDict d =>
      match Record.get? d "name", Record.get? d "price" with
      | some (.vStr nm), some (.vInt pr) => .ok ⟨nm, pr⟩
      | none, _ => .error (.keyError "name")
      | _, none => .error (.keyError "price")
      | _, _ => .error (.untypedField "name/price")
  | _ => .error (.untypedField "service")

/-- The replay loop at the end of `Appointment.from_dict`: decode each
service sub-record in order and `add_service` it to the appointment. -/
def replayServices (a : Appointment) : List DVal → Except PyError Appointment
  | [] => .ok a
  | v :: rest =>
      match decodeService v with
      | .error e => .error e
      | .ok s => replayServices (a.add_service s) rest

/-- Embedding of the static `Appointment.from_dict`: restore the nested
patient, rebuild the doctor info, construct the appointment (empty service
list), then replay `add_service` over the serialized services in order. -/
def Appointment.from_dict (data : Record) : Except PyError Appointment :=
  match data.getDictItem "patient" with
  | .error e => .error e
  | .ok pd =>
    match Patient.from_dict pd with
    | .error e => .error e
    | .ok patient =>
      match data.getDictItem "doctor_info" with
      | .error e => .error e
      | .ok dd =>
        match dd.getStrItem "name", dd.getStrItem "specialty", dd.getStrItem "contact_info" with
        | .ok din, .ok dis, .ok dic =>
          match data.getStrItem "appointment_id", data.getStrItem "doctor",
                data.getStrItem "date", data.getStrItem "diagnosis",
                data.getStrItem "prescription" with
          | .ok aid, .ok doc, .ok dt, .ok dg, .ok pr =>
            match data.get? "services" with
            | some (.vList items) =>
                replayServices ⟨aid, patient, doc, dt, dg, pr, ⟨din, dis, dic⟩, []⟩ items
            | none => .error (.keyError "services")
            | some _ => .error (.untypedField "services")
          | .error e, _, _, _, _ => .error e
          | _, .error e, _, _, _ => .error e
          | _, _, .error e, _, _ => .error e
          | _, _, _, .error e, _ => .error e
          | _, _, _, _, .error e => .error e
        | .error e, _, _ => .error e
        | _, .error e, _ => .error e
        | _, _, .error e => .error e

/-- Which handler level approved a diagnosis change. -/
inductive ApprovalLevel where
  | frontLine
  | department
  | chief
deriving DecidableEq

/-- A handler in the chain of responsibility: `Doctor` (front line),
`DepartmentHead` or `ChiefPhysician`, each holding its optional
successor (`DiagnosisChangeHandler._successor`). -/
inductive Handler where
  | doctor (successor : Option Handler)
  | departmentHead (successor : Option Handler)
  | chiefPhysician (successor : Option Handler)

/-- Marker phrase of the front-line handler (`Doctor.handle_request`). -/
def doctorMarker : String := "незначительное изменение"

/-- Marker phrase of the department-level handler
(`DepartmentHead.handle_request`). -/
def departmentMarker : String := "пересмотр лечения"

/-- Embedding of the three `handle_request` methods: approve (overwrite the
diagnosis and report the level) when the handler's marker phrase occurs in
the lowercased text, else forward to the successor when there is one, else
report no approval; the chief physician approves unconditionally. -/
def Handler.handle_request : Handler → Appointment → String →
    Appointment × Option ApprovalLevel
  | .doctor successor, appointment, new_diagnosis =>
      if hasSub doctorMarker (pyLower new_diagnosis) then
        ({ appointment with diagnosis := new_diagnosis }, some .frontLine)
      else
        match successor with
        | some h => h.handle_request appointment new_diagnosis
        | none => (appointment, none)
  | .departmentHead successor, appointment, new_diagnosis =>
      if hasSub departmentMarker (pyLower new_diagnosis) then
        ({ appointment with diagnosis := new_diagnosis }, some .department)
      else
        match successor with
        | some h => h.handle_request appointment new_diagnosis
        | none => (appointment, none)
  | .chiefPhysician _, appointment, new_diagnosis =>
      ({ appointment with diagnosis := new_diagnosis }, some .chief)

/-- The authorized roles of the `@check_permissions(...)` decoration on
`change_diagnosis`, in source order. -/
def required_roles : List String := ["Doctor", "Department_head", "Chief_physician"]

/-- Message of the `PermissionDeniedError` the decorator raises
(`Требуется одна из ролей: <", ".join(required_roles)>`). -/
def permissionMsg (required : List String) : String :=
  "Требуется одна из ролей: " ++ String.intercalate ", " required

/-- Embedding of the `check_permissions` decorator: the wrapper consumes the
requester role, raises `PermissionDeniedError` when it is not among the
required roles, and only otherwise calls the wrapped function. -/
def check_permissions {α β : Type} (required : List String) (func : α → β)
    (user_role : String) (args : α) : Except PyError β :=
  if user_role ∈ required then .ok (func args)
  else .error (.permissionDenied (permissionMsg required))

/-- Embedding of `change_diagnosis`: the permission-decorated entry point
that hands the appointment and the new diagnosis to the chain head. -/
def change_diagnosis (user_role : String) (appointment : Appointment)
    (new_diagnosis : String) (handler : Handler) :
    Except PyError (Appointment × Option ApprovalLevel) :=
  check_permissions required_roles
    (fun x : Appointment × String × Handler => x.2.2.handle_request x.1 x.2.1)
    user_role (appointment, new_diagnosis, handler)

/-- Does a deserialization result report the `UnknownPatientType` failure
(a `ValueError` in the source)? -/
def isUnknownPatientTypeFailure {α : Type} : Except PyError α → Bool
  | .error (.valueError _) => true
  | _ => false

/-!  Theorems.  -/

/-- The truthiness guard `x if x else ""` is the identity on strings. -/
theorem strOrEmpty (s : String) : (if s = "" then "" else s) = s := by
  split
  · simp_all
  · rfl

/-- Serialization round trip for every patient object, whatever its
registered class. -/
theorem patient_from_to_dict (p : Patient) : Patient.from_dict p.to_dict = .ok p := by
  obtain ⟨pid, nm, ag, gd, mh, k⟩ := p
  cases k <;> simp only [Patient.to_dict, strOrEmpty] <;> rfl

/-- Replaying `add_service` over the encoded service list appends exactly
that list, in order. -/
theorem replayServices_map (a : Appointment) (l : List Service) :
    replayServices a (l.map fun s =>
        DVal.vDict [("name", DVal.vStr s.name), ("price", DVal.vInt s.price)])
      = .ok { a with services := a.services ++ l } := by
  induction l generalizing a with
  | nil => simp [replayServices]
  | cons s rest ih =>
      simp [replayServices, decodeService, Record.get?, ih, Appointment.add_service]

/-- C4: for any two patients, `__eq__` holds iff the ages and the
medical-history lengths agree; `__lt__` holds iff the age is smaller, or the
ages agree and the history is shorter; `__gt__` is the symmetric rule — no
other field (identity, name, gender, variant) enters the comparison. -/
theorem patient_comparison (a b : Patient) :
    (Patient.eq a b = true ↔
      a.age = b.age ∧ a.medical_history.length = b.medical_history.length) ∧
    (Patient.lt a b = true ↔
      (a.age < b.age ∨
        (a.age = b.age ∧ a.medical_history.length < b.medical_history.length))) ∧
    (Patient.gt a b = true ↔
      (a.age > b.age ∨
        (a.age = b.age ∧ a.medical_history.length > b.medical_history.length))) := by
  refine ⟨by simp [Patient.eq], ?_, ?_⟩
  · unfold Patient.lt
    split_ifs with h1 h2 <;> simp_all
  · unfold Patient.gt
    split_ifs with h1 h2 <;> simp_all

/-- C5: the age setter assigns exactly when `1 < age < 110`; outside that
range the patient is returned unchanged — the rejection produces no error
value (the setter's codomain is the patient itself). -/
theorem set_age_validation (p : Patient) (a : Int) :
    (1 < a ∧ a < 110 → p.set_age a = { p with age := a }) ∧
    (¬(1 < a ∧ a < 110) → p.set_age a = p) := by
  constructor <;> intro h <;> simp [Patient.set_age, h]

/-- Witness for C5 at the boundary: 109 is assigned, 110 is rejected with
the prior value retained. -/
theorem set_age_validation_witness :
    (⟨"A1", "Иван", 50, "м", "ист", PKind.adult "o"⟩ : Patient).set_age 109
        = { (⟨"A1", "Иван", 50, "м", "ист", PKind.adult "o"⟩ : Patient) with age := 109 } ∧
    (⟨"A1", "Иван", 50, "м", "ист", PKind.adult "o"⟩ : Patient).set_age 110
        = ⟨"A1", "Иван", 50, "м", "ист", PKind.adult "o"⟩ :=
  ⟨(set_age_validation _ 109).1 (by decide), (set_age_validation _ 110).2 (by decide)⟩

/-- C8: whenever factory creation succeeds, the constructed patient holds
exactly the common field values passed in — no age or gender validation is
applied on the construction path. -/
theorem factory_no_validation (tag : String) (c : CommonFields) (extra : Option String)
    (p : Patient) (h : create_patient tag c extra = .ok p) :
    p.patient_id = c.patient_id ∧ p.name = c.name ∧ p.age = c.age ∧
    p.gender = c.gender ∧ p.medical_history = c.medical_history := by
  cases hc : get_patient_class tag <;> simp [create_patient, hc] at h
  rename_i cls
  cases cls <;> cases extra <;> simp [constructPatient] at h <;> simp [← h]

/-- Witness for C8: creation with the out-of-range age 200 and the
unrecognized gender code `x` succeeds and stores those values verbatim. -/
theorem factory_no_validation_witness :
    (⟨"X999", "Некто", 200, "x", "ист", PKind.adult "прораб"⟩ : Patient).patient_id
        = (⟨"X999", "Некто", 200, "x", "ист"⟩ : CommonFields).patient_id ∧
    (⟨"X999", "Некто", 200, "x", "ист", PKind.adult "прораб"⟩ : Patient).name
        = (⟨"X999", "Некто", 200, "x", "ист"⟩ : CommonFields).name ∧
    (⟨"X999", "Некто", 200, "x", "ист", PKind.adult "прораб"⟩ : Patient).age
        = (⟨"X999", "Некто", 200, "x", "ист"⟩ : CommonFields).age ∧
    (⟨"X999", "Некто", 200, "x", "ист", PKind.adult "прораб"⟩ : Patient).gender
        = (⟨"X999", "Некто", 200, "x", "ист"⟩ : CommonFields).gender ∧
    (⟨"X999", "Некто", 200, "x", "ист", PKind.adult "прораб"⟩ : Patient).medical_history
        = (⟨"X999", "Некто", 200, "x", "ист"⟩ : CommonFields).medical_history :=
  factory_no_validation "adultpatient" ⟨"X999", "Некто", 200, "x", "ист"⟩ (some "прораб")
    ⟨"X999", "Некто", 200, "x", "ист", PKind.adult "прораб"⟩ rfl

/-- C10: the metaclass registry holds every concrete subclass keyed by its
lowercased class name, so the tag `patientwithnotifications` resolves and
the factory builds a patient that is none of the Adult, Child or Senior
variants. -/
theorem registry_has_notifications_variant (c : CommonFields) :
    get_patient_class "patientwithnotifications" = some PClass.patientWithNotifications ∧
    ∃ p, create_patient "patientwithnotifications" c none = .ok p ∧
      p.kind = PKind.withNotifications ∧
      (∀ o, p.kind ≠ PKind.adult o) ∧ (∀ g, p.kind ≠ PKind.child g) ∧
      (∀ cc, p.kind ≠ PKind.senior cc) := by
  refine ⟨rfl,
    ⟨⟨c.patient_id, c.name, c.age, c.gender, c.medical_history, .withNotifications⟩,
      rfl, rfl, ?_, ?_, ?_⟩⟩ <;> intro x <;> simp

/-- C1: for every patient of the Adult, Child or Senior variant,
deserializing the record produced by serialization yields a patient equal
field by field — `patient_id`, `name`, `age`, `gender`, `medical_history`,
the variant and its variant-specific field — to the original. -/
theorem round_trip_patient (p : Patient)
    (_h : (∃ o, p.kind = PKind.adult o) ∨ (∃ g, p.kind = PKind.child g) ∨
      (∃ cc, p.kind = PKind.senior cc)) :
    Patient.from_dict p.to_dict = .ok p :=
  patient_from_to_dict p

/-- Witness for C1 on a concrete adult patient. -/
theorem round_trip_patient_witness :
    Patient.from_dict
        (Patient.to_dict ⟨"A123", "Иван Петров", 35, "м", "Аллергия", PKind.adult "Программист"⟩)
      = .ok ⟨"A123", "Иван Петров", 35, "м", "Аллергия", PKind.adult "Программист"⟩ :=
  round_trip_patient _ (Or.inl ⟨"Программист", rfl⟩)

/-- C9: for every appointment, deserializing the serialized record rebuilds
an appointment whose scalar fields, doctor info and nested patient equal the
original's, and whose service list holds the same `(name, price)` entries in
the same order, `add_service` being replayed once per entry. -/
theorem round_trip_appointment (a : Appointment) :
    Appointment.from_dict a.to_dict = .ok a := by
  obtain ⟨aid, p, doc, dt, dg, pr, ⟨din, dis, dic⟩, svs⟩ := a
  simp [Appointment.to_dict, Appointment.from_dict, Record.getDictItem,
    Record.getStrItem, Record.get?, patient_from_to_dict, replayServices_map]

/-- C2: a diagnosis text holding the department marker phrase
(`пересмотр лечения`, case-insensitively) but not the front-line marker,
submitted to the head of a front-line → department → chief chain, is
approved at the department level and the appointment's diagnosis is
overwritten with exactly the submitted text. -/
theorem chain_department_approves (appointment : Appointment) (new_diagnosis : String)
    (sc : Option Handler)
    (hdept : hasSub departmentMarker (pyLower new_diagnosis) = true)
    (hdoc : hasSub doctorMarker (pyLower new_diagnosis) = false) :
    Handler.handle_request
        (.doctor (some (.departmentHead (some (.chiefPhysician sc)))))
        appointment new_diagnosis
      = ({ appointment with diagnosis := new_diagnosis },
         some ApprovalLevel.department) := by
  simp [Handler.handle_request, hdept, hdoc]

/-- Witness for C2: the mixed-case text `Пересмотр Лечения` on a concrete
chain and appointment. -/
theorem chain_department_approves_witness :
    Handler.handle_request
        (.doctor (some (.departmentHead (some (.chiefPhysician none)))))
        ⟨"AP1", ⟨"A1", "Иван", 35, "м", "ист", PKind.adult "o"⟩, "Врач", "2023-10-15",
          "Грипп", "Парацетамол", ⟨"Д", "Терапевт", "c"⟩, []⟩
        "Пересмотр Лечения"
      = ({ (⟨"AP1", ⟨"A1", "Иван", 35, "м", "ист", PKind.adult "o"⟩, "Врач", "2023-10-15",
            "Грипп", "Парацетамол", ⟨"Д", "Терапевт", "c"⟩, []⟩ : Appointment) with
           diagnosis := "Пересмотр Лечения" },
         some ApprovalLevel.department) :=
  chain_department_approves _ _ none (by decide) (by decide)

/-- C3: a requester role outside the three recognized roles (case-sensitive
comparison) makes `change_diagnosis` fail with `PermissionDeniedError`; the
wrapped function — hence the chain — is never invoked, for any wrapped
function at all, so the appointment is unchanged. -/
theorem change_diagnosis_permission (user_role : String) (appointment : Appointment)
    (new_diagnosis : String) (handler : Handler) (h : user_role ∉ required_roles) :
    change_diagnosis user_role appointment new_diagnosis handler
        = .error (.permissionDenied (permissionMsg required_roles)) ∧
    ∀ (β : Type) (f : Unit → β),
      check_permissions required_roles f user_role ()
        = .error (.permissionDenied (permissionMsg required_roles)) := by
  refine ⟨?_, fun β f => ?_⟩ <;> simp [change_diagnosis, check_permissions, h]

/-- Witness for C3 with the unrecognized role `user` from the program's own
demo run. -/
theorem change_diagnosis_permission_witness :
    change_diagnosis "user"
        ⟨"AP1", ⟨"A1", "Иван", 35, "м", "ист", PKind.adult "o"⟩, "Врач", "2023-10-15",
          "Грипп", "Парацетамол", ⟨"Д", "Терапевт", "c"⟩, []⟩
        "Незначительное изменение" (.doctor none)
      = .error (.permissionDenied (permissionMsg required_roles)) :=
  (change_diagnosis_permission "user" _ _ _ (by decide)).1

/-- C6: the factory resolves tags case-insensitively — `ADULTPATIENT`
behaves exactly as `adultpatient` and succeeds — and an unresolvable tag
fails with the `UnknownPatientType` `ValueError` carrying the offending
tag. -/
theorem factory_tag_resolution (tag : String) (c : CommonFields) (o : String)
    (h : get_patient_class tag = none) :
    create_patient "ADULTPATIENT" c (some o) = create_patient "adultpatient" c (some o) ∧
    create_patient "ADULTPATIENT" c (some o)
        = .ok ⟨c.patient_id, c.name, c.age, c.gender, c.medical_history, .adult o⟩ ∧
    create_patient tag c (some o) = .error (.valueError (unknownTypeMsg ++ tag)) := by
  refine ⟨rfl, rfl, ?_⟩
  simp [create_patient, h]

/-- Witness for C6 with the unregistered tag `unknown`. -/
theorem factory_tag_resolution_witness :
    create_patient "ADULTPATIENT" ⟨"A1", "Иван", 35, "м", "ист"⟩ (some "o")
        = create_patient "adultpatient" ⟨"A1", "Иван", 35, "м", "ист"⟩ (some "o") ∧
    create_patient "ADULTPATIENT" ⟨"A1", "Иван", 35, "м", "ист"⟩ (some "o")
        = .ok ⟨"A1", "Иван", 35, "м", "ист", PKind.adult "o"⟩ ∧
    create_patient "unknown" ⟨"A1", "Иван", 35, "м", "ист"⟩ (some "o")
        = .error (.valueError (unknownTypeMsg ++ "unknown")) :=
  factory_tag_resolution "unknown" ⟨"A1", "Иван", 35, "м", "ист"⟩ "o" rfl

/-- C7 counterexample: on a record with no `type` key, `from_dict` raises the
`AttributeError` of `None.lower()`, not the `UnknownPatientType`
`ValueError` the claim asserts. -/
theorem from_dict_missing_type_counterexample :
    isUnknownPatientTypeFailure (Patient.from_dict ([] : Record)) = false ∧
    Patient.from_dict ([] : Record) = .error (.attributeError noneLowerMsg) :=
  ⟨rfl, rfl⟩

/-- C7 (amended): a record with no `type` key makes `from_dict` crash with
the `AttributeError` of calling `.lower()` on `None`; a `type` key holding
an unregistered tag fails with the `UnknownPatientType` `ValueError`; and
when the type resolves, an absent variant-specific key is defaulted to the
empty string in the constructed patient. -/
theorem from_dict_error_handling (r r2 : Record) (tag pid nm gd mh : String) (ag : Int)
    (hr : r.get? "type" = none)
    (ht : r2.get? "type" = some (.vStr tag)) (hu : get_patient_class tag = none) :
    Patient.from_dict r = .error (.attributeError noneLowerMsg) ∧
    Patient.from_dict r2 = .error (.valueError (unknownTypeMsg ++ tag)) ∧
    Patient.from_dict [("type", .vStr "adultpatient"), ("patient_id", .vStr pid),
        ("name", .vStr nm), ("age", .vInt ag), ("gender", .vStr gd),
        ("medical_history", .vStr mh)]
      = .ok ⟨pid, nm, ag, gd, mh, .adult ""⟩ ∧
    Patient.from_dict [("type", .vStr "childpatient"), ("patient_id", .vStr pid),
        ("name", .vStr nm), ("age", .vInt ag), ("gender", .vStr gd),
        ("medical_history", .vStr mh)]
      = .ok ⟨pid, nm, ag, gd, mh, .child ""⟩ ∧
    Patient.from_dict [("type", .vStr "seniorpatient"), ("patient_id", .vStr pid),
        ("name", .vStr nm), ("age", .vInt ag), ("gender", .vStr gd),
        ("medical_history", .vStr mh)]
      = .ok ⟨pid, nm, ag, gd, mh, .senior ""⟩ := by
  refine ⟨?_, ?_, rfl, rfl, rfl⟩
  · simp [Patient.from_dict, hr]
  · simp [Patient.from_dict, ht, hu]

/-- Witness for the amended C7 at concrete records. -/
theorem from_dict_error_handling_witness :
    Patient.from_dict ([] : Record) = .error (.attributeError noneLowerMsg) ∧
    Patient.from_dict [("type", .vStr "unknown")]
        = .error (.valueError (unknownTypeMsg ++ "unknown")) ∧
    Patient.from_dict [("type", .vStr "adultpatient"), ("patient_id", .vStr "A1"),
        ("name", .vStr "Иван"), ("age", .vInt 35), ("gender", .vStr "м"),
        ("medical_history", .vStr "ист")]
      = .ok ⟨"A1", "Иван", 35, "м", "ист", .adult ""⟩ ∧
    Patient.from_dict [("type", .vStr "childpatient"), ("patient_id", .vStr "A1"),
        ("name", .vStr "Иван"), ("age", .vInt 35), ("gender", .vStr "м"),
        ("medical_history", .vStr "ист")]
      = .ok ⟨"A1", "Иван", 35, "м", "ист", .child ""⟩ ∧
    Patient.from_dict [("type", .vStr "seniorpatient"), ("patient_id", .vStr "A1"),
        ("name", .vStr "Иван"), ("age", .vInt 35), ("gender", .vStr "м"),
        ("medical_history", .vStr "ист")]
      = .ok ⟨"A1", "Иван", 35, "м", "ист", .senior ""⟩ :=
  from_dict_error_handling [] [("type", .vStr "unknown")] "unknown"
    "A1" "Иван" "м" "ист" 35 rfl rfl rfl

end Clinic
